import Mathlib

/-!
# Verification of the Arcade flow-analysis tool (`analyze_flow.py`)

This file gives a shallow embedding of the cache store, interaction
extractor, description generator, narrative generator and image
synthesizer of `analyze_flow.py`, and proves the specified properties
about them.

Modelling conventions:

* The cache directory is a map from cache key to the (parsed or
  unparseable) content of the file `CACHE_DIR/{key}.json`; the `.json`
  suffix and directory name are a fixed bijection on keys and are not
  repeated in the model.
* `os.path.exists` on ordinary files is a map `String → Bool` carrying
  the fact that the empty path never exists.
* The two external generation services (chat completion and image
  generation) and the HTTP download are an `Oracle` of functions
  returning `Except Unit` values; `Except.error ()` stands for any
  raised exception, and the returned string for the successful payload.
* Machine integers in the MD5 computation are `Nat` reduced `% 2 ^ 32`
  (resp. `% 2 ^ 64` for the length field), exactly as the hash is
  specified.
* Each cache-fronted operation returns, besides its value and the
  updated file system, a `Bool` recording whether the external service
  was invoked during the call (`false` exactly on the cache-hit path).
-/

/-! ## MD5 (`hashlib.md5(...).hexdigest()`)

`get_cache_key` hashes with MD5 and takes the lowercase hex digest.
The implementation below is RFC 1321 MD5 over the UTF-8 bytes of the
input string, with 32-bit words as `Nat` values reduced `% 4294967296`.
-/

/-- UTF-8 bytes of one character (standard encoding of the code point). -/
def charUtf8 (c : Char) : List Nat :=
  let n := c.toNat
  if n < 128 then [n]
  else if n < 2048 then [192 + n / 64, 128 + n % 64]
  else if n < 65536 then [224 + n / 4096, 128 + (n / 64) % 64, 128 + n % 64]
  else [240 + n / 262144, 128 + (n / 4096) % 64, 128 + (n / 64) % 64, 128 + n % 64]

/-- UTF-8 bytes of a string (Python `str.encode()`). -/
def strBytes (s : String) : List Nat :=
  (s.data.map charUtf8).flatten

/-- `k` little-endian bytes of `n`. -/
def natLEBytes (n : Nat) : Nat → List Nat
  | 0 => []
  | k + 1 => n % 256 :: natLEBytes (n / 256) k

/-- MD5 padding: append `0x80`, zero bytes to 56 mod 64, then the
original length in bits as a 64-bit little-endian quantity. -/
def md5pad (msg : List Nat) : List Nat :=
  let len := msg.length
  let zeros := (119 - len % 64) % 64
  msg ++ 128 :: List.replicate zeros 0 ++ natLEBytes (len * 8 % 2 ^ 64) 8

/-- Group bytes into 32-bit little-endian words. -/
def bytesToWordsLE : List Nat → List Nat
  | b0 :: b1 :: b2 :: b3 :: rest =>
      (b0 + b1 * 256 + b2 * 65536 + b3 * 16777216) :: bytesToWordsLE rest
  | _ => []

/-- Left rotation of a 32-bit word. -/
def md5rotl (x n : Nat) : Nat :=
  (x <<< n) % 4294967296 ||| x >>> (32 - n)

/-- The per-round shift amounts of MD5. -/
def md5ShiftTable : List Nat :=
  [7, 12, 17, 22, 7, 12, 17, 22, 7, 12, 17, 22, 7, 12, 17, 22,
   5, 9, 14, 20, 5, 9, 14, 20, 5, 9, 14, 20, 5, 9, 14, 20,
   4, 11, 16, 23, 4, 11, 16, 23, 4, 11, 16, 23, 4, 11, 16, 23,
   6, 10, 15, 21, 6, 10, 15, 21, 6, 10, 15, 21, 6, 10, 15, 21]

/-- The sine-derived constant table of MD5. -/
def md5KTable : List Nat :=
  [0xd76aa478, 0xe8c7b756, 0x242070db, 0xc1bdceee,
   0xf57c0faf, 0x4787c62a, 0xa8304613, 0xfd469501,
   0x698098d8, 0x8b44f7af, 0xffff5bb1, 0x895cd7be,
   0x6b901122, 0xfd987193, 0xa679438e, 0x49b40821,
   0xf61e2562, 0xc040b340, 0x265e5a51, 0xe9b6c7aa,
   0xd62f105d, 0x02441453, 0xd8a1e681, 0xe7d3fbc8,
   0x21e1cde6, 0xc33707d6, 0xf4d50d87, 0x455a14ed,
   0xa9e3e905, 0xfcefa3f8, 0x676f02d9, 0x8d2a4c8a,
   0xfffa3942, 0x8771f681, 0x6d9d6122, 0xfde5380c,
   0xa4beea44, 0x4bdecfa9, 0xf6bb4b60, 0xbebfbc70,
   0x289b7ec6, 0xeaa127fa, 0xd4ef3085, 0x04881d05,
   0xd9d4d039, 0xe6db99e5, 0x1fa27cf8, 0xc4ac5665,
   0xf4292244, 0x432aff97, 0xab9423a7, 0xfc93a039,
   0x655b59c3, 0x8f0ccc92, 0xffeff47d, 0x85845dd1,
   0x6fa87e4f, 0xfe2ce6e0, 0xa3014314, 0x4e0811a1,
   0xf7537e82, 0xbd3af235, 0x2ad7d2bb, 0xeb86d391]

/-- The round function of MD5 (a different bitwise mix per 16 rounds). -/
def md5F (i b c d : Nat) : Nat :=
  if i < 16 then b &&& c ||| (b ^^^ 4294967295) &&& d
  else if i < 32 then d &&& b ||| (d ^^^ 4294967295) &&& c
  else if i < 48 then b ^^^ c ^^^ d
  else c ^^^ (b ||| (d ^^^ 4294967295))

/-- The message-word index used in round `i`. -/
def md5g (i : Nat) : Nat :=
  if i < 16 then i
  else if i < 32 then (5 * i + 1) % 16
  else if i < 48 then (3 * i + 5) % 16
  else 7 * i % 16

/-- One of the 64 state-update operations of a block. -/
def md5step (M : List Nat) (st : Nat × Nat × Nat × Nat) (i : Nat) : Nat × Nat × Nat × Nat :=
  match st with
  | (a, b, c, d) =>
      let f := (md5F i b c d + a + md5KTable.getD i 0 + M.getD (md5g i) 0) % 4294967296
      (d, (b + md5rotl f (md5ShiftTable.getD i 0)) % 4294967296, b, c)

/-- Compression of one 64-byte block into the running state. -/
def md5compress (block : List Nat) (st : Nat × Nat × Nat × Nat) : Nat × Nat × Nat × Nat :=
  let M := bytesToWordsLE block
  match st, (List.range 64).foldl (md5step M) st with
  | (a, b, c, d), (a', b', c', d') =>
      ((a + a') % 4294967296, (b + b') % 4294967296,
       (c + c') % 4294967296, (d + d') % 4294967296)

/-- Fold the compression over `n` consecutive 64-byte blocks. -/
def md5blocksGo : Nat → List Nat → Nat × Nat × Nat × Nat → Nat × Nat × Nat × Nat
  | 0, _, st => st
  | n + 1, bytes, st => md5blocksGo n (bytes.drop 64) (md5compress (bytes.take 64) st)

/-- The four 32-bit state words of the MD5 digest of a byte sequence. -/
def md5digest (msg : List Nat) : Nat × Nat × Nat × Nat :=
  let padded := md5pad msg
  md5blocksGo (padded.length / 64) padded
    (0x67452301, 0xefcdab89, 0x98badcfe, 0x10325476)

/-- A lowercase hexadecimal digit. -/
def hexChar (n : Nat) : Char :=
  if n < 10 then Char.ofNat (48 + n) else Char.ofNat (87 + n)

/-- Two lowercase hex characters of one byte. -/
def byteHexChars (b : Nat) : List Char :=
  [hexChar (b / 16), hexChar (b % 16)]

/-- `hashlib.md5(s.encode()).hexdigest()`: the 32-character lowercase
hex digest, state words serialized little-endian. -/
def md5hex (s : String) : String :=
  match md5digest (strBytes s) with
  | (a, b, c, d) =>
      String.mk (((natLEBytes a 4 ++ natLEBytes b 4 ++ natLEBytes c 4 ++ natLEBytes d 4).map
        byteHexChars).flatten)

/-! ## Data model

`FlowStep` mirrors one entry of the input document's `steps` array;
optional JSON fields are `Option String` (absent key = `none`).
`Interaction` mirrors the dict built by `extract_user_interactions`;
the keys a variant never sets are read back only through
`.get(..., '')`, so they are plain strings defaulting to `""`
(`element` is unset on CHAPTER records, `description` on IMAGE/VIDEO
records, exactly as in the source dicts).
-/

/-- The `clickContext` object of a step. -/
structure ClickContext where
  text : Option String
  elementType : Option String
deriving DecidableEq, Repr

/-- The `pageContext` object of a step. -/
structure PageContext where
  title : Option String
  url : Option String
deriving DecidableEq, Repr

/-- One element of the flow document's `steps` array. -/
structure FlowStep where
  id : Option String
  type : Option String
  title : Option String
  subtitle : Option String
  clickContext : Option ClickContext
  pageContext : Option PageContext
deriving DecidableEq, Repr

/-- The flow document (only the fields the verified components read:
`name` and `steps`; the report-assembly metadata is out of scope). -/
structure FlowData where
  name : Option String
  steps : List FlowStep
deriving DecidableEq, Repr

/-- An interaction record emitted by `extract_user_interactions`. -/
structure Interaction where
  step_number : Nat
  action : String
  type : String
  description : String
  element : String
  page : String
  url : String
deriving DecidableEq, Repr

/-! ## Cache store -/

/-- Parsed content of one cache file.

* `malformed` is content on which `json.load` raises (the program never
  guards that call);
* `obj` is a JSON object with the optional string fields the program
  ever writes or reads (`description`, `summary`, `filename`, `url`).
  The `created` timestamp written beside an image entry is never read
  back by the program and is omitted from the model. -/
inductive CacheFileData where
  | malformed : CacheFileData
  | obj (description summary filename url : Option String) : CacheFileData
deriving DecidableEq, Repr

/-- A value coming out of (or going into) the cache: a text for the
`description`/`summary` kinds, a `(filename, url)` pair for the
`image` kind. -/
inductive CachedVal where
  | text (s : String) : CachedVal
  | image (filename : String) (url : Option String) : CachedVal
deriving DecidableEq, Repr

/-- The file system as the program sees it: the parsed content of
`cache/{key}.json` per cache key, and `os.path.exists` for ordinary
file paths.  `os.path.exists ''` is `False`, recorded as `disk_empty`. -/
structure FS where
  cache : String → Option CacheFileData
  disk : String → Bool
  disk_empty : disk "" = false

/-- `get_cache_key(prefix, data_string)`: MD5 hex digest of
`f"{prefix}_{data_string}"`.  (The first Python parameter is named
`prefix`, which is a reserved word in Lean.) -/
def get_cache_key (pre data_string : String) : String :=
  md5hex (pre ++ "_" ++ data_string)

/-- `get_cached_item(cache_key, item_type)`.  `Except.error ()` is a
raised exception (unparseable cache file); `Except.ok none` is the
`return None` fall-through; a JSON object lacking the requested field
yields `none` via `dict.get`.  An `image` entry is returned only when
its `filename` field is truthy (non-empty) and the file exists. -/
def get_cached_item (fs : FS) (cache_key : String) (item_type : String) :
    Except Unit (Option CachedVal) :=
  match fs.cache cache_key with
  | none => Except.ok none
  | some CacheFileData.malformed => Except.error ()
  | some (CacheFileData.obj description summary filename url) =>
      if item_type = "description" then Except.ok (description.map CachedVal.text)
      else if item_type = "summary" then Except.ok (summary.map CachedVal.text)
      else if item_type = "image" then
        match filename with
        | some fn =>
            if fn ≠ "" then
              if fs.disk fn then Except.ok (some (CachedVal.image fn url))
              else Except.ok none
            else Except.ok none
        | none => Except.ok none
      else Except.ok none

/-- `cache_item(cache_key, item, item_type)`: overwrite the cache file
for `cache_key` with the JSON object for the given kind.  The program
only ever pairs `text` values with the `description`/`summary` kinds
and `image` values with the `image` kind; for an unrecognized
`item_type` the file is opened for writing and left without content,
i.e. unparseable, which the mismatched arms also map to. -/
def cache_item (fs : FS) (cache_key : String) (item : CachedVal) (item_type : String) : FS :=
  let content : CacheFileData :=
    if item_type = "description" then
      match item with
      | CachedVal.text s => CacheFileData.obj (some s) none none none
      | CachedVal.image _ _ => CacheFileData.malformed
    else if item_type = "summary" then
      match item with
      | CachedVal.text s => CacheFileData.obj none (some s) none none
      | CachedVal.image _ _ => CacheFileData.malformed
    else if item_type = "image" then
      match item with
      | CachedVal.image fn url => CacheFileData.obj none none (some fn) url
      | CachedVal.text _ => CacheFileData.malformed
    else CacheFileData.malformed
  { fs with cache := fun k => if k = cache_key then some content else fs.cache k }

/-! ## External services -/

/-- The external collaborators: the chat-completion service (system
message and user prompt to message content), the image-generation
service (prompt to image URL), and the HTTP download of the image
bytes.  `Except.error ()` stands for any raised exception, including a
non-2xx status surfaced by `raise_for_status`. -/
structure Oracle where
  chat : String → String → Except Unit String
  image : String → Except Unit String
  download : String → Except Unit String

/-! ## Description generator (`describe_interaction`) -/

/-- `click_context.get('text', 'N/A')` where
`click_context = step.get('clickContext', {})`. -/
def clicked_text (step : FlowStep) : String :=
  (step.clickContext.bind ClickContext.text).getD "N/A"

/-- `click_context.get('elementType', 'unknown')`. -/
def clicked_element_type (step : FlowStep) : String :=
  (step.clickContext.bind ClickContext.elementType).getD "unknown"

/-- `page_context.get('title', '')`. -/
def page_title (step : FlowStep) : String :=
  (step.pageContext.bind PageContext.title).getD ""

/-- `page_context.get('url', '')`. -/
def page_url (step : FlowStep) : String :=
  (step.pageContext.bind PageContext.url).getD ""

/-- Python `str.isspace` for one character: the six ASCII whitespace
characters (the Unicode spaces Python also strips never occur in the
program's data and are left out of the model). -/
def py_is_space (c : Char) : Bool :=
  c.toNat = 32 || c.toNat = 9 || c.toNat = 10 || c.toNat = 13 || c.toNat = 11 || c.toNat = 12

/-- Python `str.strip()`: drop leading and trailing whitespace. -/
def py_strip (s : String) : String :=
  String.mk (((s.data.dropWhile py_is_space).reverse.dropWhile py_is_space).reverse)

/-- The fingerprint used by `describe_interaction`:
`get_cache_key('interaction', f"{step.get('id', '')}_{clicked_element}")`. -/
def interaction_cache_key (step : FlowStep) : String :=
  get_cache_key "interaction" (step.id.getD "" ++ "_" ++ clicked_text step)

/-- The user prompt `describe_interaction` submits to the service. -/
def describe_prompt (step : FlowStep) : String :=
  "Given this user interaction data from a web flow:\n- Page: " ++ page_title step ++
  "\n- URL: " ++ page_url step ++
  "\n- Clicked element type: " ++ clicked_element_type step ++
  "\n- Clicked element text: " ++ clicked_text step ++
  "\n\nCreate a concise, human-readable description of what the user did. \n" ++
  "Format it as: \"Clicked on [action]\" or \"Interacted with [element]\"\n" ++
  "Keep it under 20 words and make it natural.\n\nExamples:\n" ++
  "- \"Clicked on search bar\"\n- \"Selected scooter product\"\n" ++
  "- \"Chose Blue color option\"\n- \"Added item to cart\"\n" ++
  "- \"Clicked on cart icon\"\n\nJust return the description, nothing else:"

/-- The `try`/`except` tail of `describe_interaction` (lines 116-141):
call the chat service; on success strip the content, cache it and
return it; on any exception return the deterministic template selected
by element type, without touching the cache. -/
def describe_service_call (o : Oracle) (fs : FS) (step : FlowStep) (cache_key : String) :
    Except Unit (String × FS × Bool) :=
  match o.chat
      "You are a helpful assistant that describes user interactions in simple, clear language."
      (describe_prompt step) with
  | Except.ok content =>
      let description := py_strip content
      Except.ok (description, cache_item fs cache_key (CachedVal.text description) "description",
        true)
  | Except.error _ =>
      let clicked_element := clicked_text step
      let element_type := clicked_element_type step
      if element_type = "button" then
        Except.ok ("Clicked on button: " ++ clicked_element, fs, true)
      else if element_type = "image" then
        Except.ok ("Clicked on image: " ++ clicked_element, fs, true)
      else if element_type = "link" then
        Except.ok ("Clicked on link: " ++ clicked_element, fs, true)
      else
        Except.ok ("Interacted with: " ++ clicked_element, fs, true)

/-- `describe_interaction(client, step)`.  The unguarded cache read can
raise (`Except.error`); a truthy cached string short-circuits (`if
cached:`), so a cached empty string falls through to the service call.
A cached value of kind `description` is always a string, so the
`CachedVal.image` arm is unreachable and routed like a miss. -/
def describe_interaction (o : Oracle) (fs : FS) (step : FlowStep) :
    Except Unit (String × FS × Bool) :=
  let cache_key := interaction_cache_key step
  match get_cached_item fs cache_key "description" with
  | Except.error e => Except.error e
  | Except.ok (some (CachedVal.text c)) =>
      if c = "" then describe_service_call o fs step cache_key
      else Except.ok (c, fs, false)
  | Except.ok _ => describe_service_call o fs step cache_key

/-! ## Interaction extractor (`extract_user_interactions`) -/

/-- The loop of `extract_user_interactions`, with the list built so far
as accumulator (`user_interactions` in the source; `step_number` is
`len(user_interactions) + 1` at the moment of appending).  The
anonymous constructors list the `Interaction` fields in order:
step_number, action, type, description, element, page, url. -/
def extract_go (o : Oracle) : FS → List Interaction → List FlowStep →
    Except Unit (List Interaction × FS)
  | fs, acc, [] => Except.ok (acc, fs)
  | fs, acc, step :: rest =>
      if step.type = some "CHAPTER" then
        if step.title.getD "" ≠ "" then
          extract_go o fs (acc ++ [⟨acc.length + 1, "Started: " ++ step.title.getD "",
            "CHAPTER", step.subtitle.getD "", "", "", ""⟩]) rest
        else
          extract_go o fs acc rest
      else if step.type = some "IMAGE" ∨ step.type = some "VIDEO" then
        if step.clickContext.isSome then
          match describe_interaction o fs step with
          | Except.error e => Except.error e
          | Except.ok (action_description, fs1, _) =>
              extract_go o fs1 (acc ++ [⟨acc.length + 1, action_description,
                step.type.getD "", "", (step.clickContext.bind ClickContext.text).getD "",
                (step.pageContext.bind PageContext.title).getD "",
                (step.pageContext.bind PageContext.url).getD ""⟩]) rest
        else
          extract_go o fs acc rest
      else
        extract_go o fs acc rest

/-- `extract_user_interactions(client, flow_data)`. -/
def extract_user_interactions (o : Oracle) (fs : FS) (flow_data : FlowData) :
    Except Unit (List Interaction × FS) :=
  extract_go o fs [] flow_data.steps

/-! ## Narrative generator (`generate_flow_summary`) -/

/-- The fingerprint used by `generate_flow_summary`:
`get_cache_key('summary', f"{flow_name}_{num_interactions}")`. -/
def summary_cache_key (flow_name : String) (num_interactions : Nat) : String :=
  get_cache_key "summary" (flow_name ++ "_" ++ toString num_interactions)

/-- Python substring test `needle in haystack` on the character lists
(`[] ` is contained in everything, as in Python). -/
def chars_contain : List Char → List Char → Bool
  | [], needle => needle.isEmpty
  | c :: t, needle => needle.isPrefixOf (c :: t) || chars_contain t needle

/-- Python `needle in haystack` for strings. -/
def str_contains (haystack needle : String) : Bool :=
  chars_contain haystack.data needle.data

/-- The first truthy CHAPTER subtitle of the document
(`flow_description` in the source, `''` when there is none). -/
def first_chapter_subtitle : List FlowStep → String
  | [] => ""
  | step :: rest =>
      if step.type = some "CHAPTER" ∧ step.subtitle.getD "" ≠ "" then step.subtitle.getD ""
      else first_chapter_subtitle rest

/-- One line of the actions list: the page suffix is added only when
the page is truthy and does not already occur inside the action text. -/
def action_line (i : Interaction) : String :=
  if i.page ≠ "" ∧ str_contains i.action i.page = false then
    "- " ++ i.action ++ " (on " ++ i.page ++ ")"
  else
    "- " ++ i.action

/-- The user prompt `generate_flow_summary` submits to the service. -/
def summary_prompt (flow_name flow_description actions_text : String) : String :=
  "Analyze this user flow and create a clear, readable summary.\n\nFlow: " ++ flow_name ++
  "\nDescription: " ++ flow_description ++
  "\n\nUser Actions:\n" ++ actions_text ++
  "\n\nWrite a concise 2-3 paragraph summary that:\n" ++
  "1. Describes what the user was trying to accomplish\n" ++
  "2. Summarizes the key steps they took\n" ++
  "3. Notes the final outcome\n\nUse natural, conversational language:"

/-- The miss path of `generate_flow_summary` (lines 190-242): build the
blurb and action list, call the chat service; on success strip, cache
and return; on any exception return the deterministic one-line
fallback, without touching the cache. -/
def summary_service_call (o : Oracle) (fs : FS) (user_interactions : List Interaction)
    (flow_data : FlowData) (cache_key : String) : Except Unit (String × FS × Bool) :=
  let flow_name := flow_data.name.getD ""
  let flow_description := first_chapter_subtitle flow_data.steps
  let actions_text := String.intercalate "\n" (user_interactions.map action_line)
  match o.chat "Create clear, engaging summaries of user journeys."
      (summary_prompt flow_name flow_description actions_text) with
  | Except.ok content =>
      let summary := py_strip content
      Except.ok (summary, cache_item fs cache_key (CachedVal.text summary) "summary", true)
  | Except.error _ =>
      Except.ok ("User completed flow: " ++ flow_name ++ " with " ++
        toString user_interactions.length ++ " actions.", fs, true)

/-- `generate_flow_summary(client, user_interactions, flow_data)`.
Mirrors `describe_interaction`: unguarded cache read, truthiness test
on the cached string, fallback never cached. -/
def generate_flow_summary (o : Oracle) (fs : FS) (user_interactions : List Interaction)
    (flow_data : FlowData) : Except Unit (String × FS × Bool) :=
  let flow_name := flow_data.name.getD ""
  let cache_key := summary_cache_key flow_name user_interactions.length
  match get_cached_item fs cache_key "summary" with
  | Except.error e => Except.error e
  | Except.ok (some (CachedVal.text c)) =>
      if c = "" then summary_service_call o fs user_interactions flow_data cache_key
      else Except.ok (c, fs, false)
  | Except.ok _ => summary_service_call o fs user_interactions flow_data cache_key

/-! ## Image synthesizer (`generate_social_media_image`) -/

/-- `generate_image_prompt(flow_summary, flow_data, user_interactions)`
(the interactions parameter is unused in the source as well). -/
def generate_image_prompt (flow_summary : String) (flow_data : FlowData)
    (user_interactions : List Interaction) : String :=
  let _ := user_interactions
  let flow_name := flow_data.name.getD "User Flow"
  let summary_lower := flow_summary.toLower
  let key_themes :=
    (if str_contains summary_lower "scooter" then ["modern scooter"] else []) ++
    (if str_contains summary_lower "shopping" ∨ str_contains summary_lower "cart" then
      ["online shopping"] else []) ++
    (if str_contains summary_lower "target" then ["retail shopping experience"] else [])
  let themes_text := if key_themes ≠ [] then String.intercalate ", " key_themes
    else "user journey"
  "Create a vibrant, professional social media image for this user flow: \"" ++ flow_name ++
  "\"\n\nThe image should:\n" ++
  "- Be visually engaging and suitable for social media (Instagram, Twitter, LinkedIn)\n" ++
  "- Represent the theme of: " ++ themes_text ++ "\n" ++
  "- Use modern, clean design with bright, appealing colors\n" ++
  "- Have a professional but friendly aesthetic\n" ++
  "- Include visual elements that tell a story about the user journey\n" ++
  "- Be optimized for 1024x1024 square format\n" ++
  "- Look shareable and engaging\n\n" ++
  "Style: Modern digital illustration, clean composition, professional social media " ++
  "graphic design, colorful and eye-catching"

/-- The fingerprint used by `generate_social_media_image`:
`get_cache_key('image', f"{name}_{md5(summary).hexdigest()[:10]}")`. -/
def image_cache_key (flow_summary : String) (flow_data : FlowData) : String :=
  get_cache_key "image" (flow_data.name.getD "" ++ "_" ++ (md5hex flow_summary).take 10)

/-- The local file name the downloaded image is saved under;
`now` is `datetime.now().strftime("%Y%m%d_%H%M%S")`, an input from the
ambient clock. -/
def image_filename_for (flow_data : FlowData) (now : String) : String :=
  "social_media_image_" ++
    (((flow_data.name.getD "flow").replace " " "_").replace "/" "_").take 30 ++
    "_" ++ now ++ ".png"

/-- The saved image file name is never the empty path. -/
theorem image_filename_for_ne_empty (flow_data : FlowData) (now : String) :
    image_filename_for flow_data now ≠ "" := by
  intro h
  have hlen := congrArg String.length h
  rw [image_filename_for] at hlen
  simp only [String.length_append] at hlen
  have h1 : ("social_media_image_" : String).length = 19 := rfl
  have h2 : ("_" : String).length = 1 := rfl
  have h3 : (".png" : String).length = 4 := rfl
  have h4 : ("" : String).length = 0 := rfl
  omega

/-- The miss path of `generate_social_media_image` (lines 286-327):
generate the image, download it, write it to disk, cache the
`(filename, url)` pair; any exception along the way yields
`(None, None)` with the cache and disk untouched. -/
def image_service_call (o : Oracle) (fs : FS) (flow_summary : String) (flow_data : FlowData)
    (user_interactions : List Interaction) (now : String) (cache_key : String) :
    Except Unit ((Option String × Option String) × FS × Bool) :=
  let image_prompt := generate_image_prompt flow_summary flow_data user_interactions
  match o.image image_prompt with
  | Except.error _ => Except.ok ((none, none), fs, true)
  | Except.ok image_url =>
      match o.download image_url with
      | Except.error _ => Except.ok ((none, none), fs, true)
      | Except.ok _content =>
          let image_filename := image_filename_for flow_data now
          let fs1 : FS :=
            { fs with
              disk := fun p => if p = image_filename then true else fs.disk p
              disk_empty := by
                show (if ("" : String) = image_filename_for flow_data now then true
                  else fs.disk "") = false
                rw [if_neg fun h => image_filename_for_ne_empty flow_data now h.symm]
                exact fs.disk_empty }
          let fs2 := cache_item fs1 cache_key
            (CachedVal.image image_filename (some image_url)) "image"
          Except.ok ((some image_filename, some image_url), fs2, true)

/-- `generate_social_media_image(client, flow_summary, flow_data,
user_interactions)`.  A cached `(filename, url)` pair is always truthy,
so a hit short-circuits; a cached value of kind `image` is never a bare
string, so the `CachedVal.text` arm is unreachable and routed like a
miss. -/
def generate_social_media_image (o : Oracle) (fs : FS) (flow_summary : String)
    (flow_data : FlowData) (user_interactions : List Interaction) (now : String) :
    Except Unit ((Option String × Option String) × FS × Bool) :=
  let cache_key := image_cache_key flow_summary flow_data
  match get_cached_item fs cache_key "image" with
  | Except.error e => Except.error e
  | Except.ok (some (CachedVal.image fn url)) => Except.ok ((some fn, url), fs, false)
  | Except.ok _ =>
      image_service_call o fs flow_summary flow_data user_interactions now cache_key

/-! ## Concrete fixtures used by witnesses and counterexamples -/

/-- An empty cache directory and an empty disk. -/
def emptyFS : FS := ⟨fun _ => none, fun _ => false, rfl⟩

/-- A file system whose every cache file is unparseable. -/
def malformed_fs : FS := ⟨fun _ => some CacheFileData.malformed, fun _ => false, rfl⟩

/-- Services that raise on every call. -/
def failing_oracle : Oracle :=
  ⟨fun _ _ => Except.error (), fun _ => Except.error (), fun _ => Except.error ()⟩

/-- A chat service that answers every request with the fixed text `r`
(image generation and download still raise). -/
def const_oracle (r : String) : Oracle :=
  ⟨fun _ _ => Except.ok r, fun _ => Except.error (), fun _ => Except.error ()⟩

/-- An IMAGE step whose click context is a button labelled `Submit`. -/
def submit_button_step : FlowStep :=
  ⟨some "s1", some "IMAGE", none, none, some ⟨some "Submit", some "button"⟩, none⟩

/-- A flow document named `Checkout` with no steps. -/
def checkout_flow : FlowData := ⟨some "Checkout", []⟩

/-! ## C1 — failure semantics of the cache read

The claim says a malformed cache file is treated as a miss and the
read never raises.  The code parses the file with an unguarded
`json.load`, so unparseable content raises out of `get_cached_item`;
only a missing file, or a parseable object lacking the requested
field, is a silent miss.  The claim is refuted below and proved in the
amended form.
-/

/-- C1 counterexample: with an unparseable cache file present for the
key, the cache read raises instead of returning absent. -/
theorem c1_counterexample :
    get_cached_item malformed_fs "0123456789abcdef0123456789abcdef" "description" =
      Except.error () := rfl

/-- C1 (amended): a missing cache file is a miss, a parseable cache
object without the requested field is a miss, but a cache file that is
not parseable JSON makes the cache read raise. -/
theorem c1_cache_read_failure_semantics :
    (∀ (fs : FS) (k t : String), fs.cache k = none →
      get_cached_item fs k t = Except.ok none) ∧
    (∀ (fs : FS) (k : String) (s fn u : Option String),
      fs.cache k = some (CacheFileData.obj none s fn u) →
      get_cached_item fs k "description" = Except.ok none) ∧
    (∀ (fs : FS) (k t : String), fs.cache k = some CacheFileData.malformed →
      get_cached_item fs k t = Except.error ()) := by
  refine ⟨fun fs k t h => ?_, fun fs k s fn u h => ?_, fun fs k t h => ?_⟩
  · simp [get_cached_item, h]
  · simp [get_cached_item, h]
  · simp [get_cached_item, h]

/-- C1 witness: the amended theorem evaluated on an empty cache and on
an unparseable cache file. -/
theorem c1_witness :
    get_cached_item emptyFS "k0" "summary" = Except.ok none ∧
    get_cached_item malformed_fs "k0" "summary" = Except.error () :=
  ⟨c1_cache_read_failure_semantics.1 emptyFS "k0" "summary" rfl,
   c1_cache_read_failure_semantics.2.2 malformed_fs "k0" "summary" rfl⟩

/-! ## C3 — cache round trip -/

/-- C3: for each cache kind, writing a value under a key and reading
the same key of the same kind returns the stored value; for the image
kind this holds when the referenced file exists on disk. -/
theorem c3_cache_round_trip :
    (∀ (fs : FS) (k s : String),
      get_cached_item (cache_item fs k (CachedVal.text s) "description") k "description" =
        Except.ok (some (CachedVal.text s))) ∧
    (∀ (fs : FS) (k s : String),
      get_cached_item (cache_item fs k (CachedVal.text s) "summary") k "summary" =
        Except.ok (some (CachedVal.text s))) ∧
    (∀ (fs : FS) (k fn : String) (u : Option String), fs.disk fn = true →
      get_cached_item (cache_item fs k (CachedVal.image fn u) "image") k "image" =
        Except.ok (some (CachedVal.image fn u))) := by
  refine ⟨fun fs k s => ?_, fun fs k s => ?_, fun fs k fn u h => ?_⟩
  · simp [get_cached_item, cache_item]
  · simp [get_cached_item, cache_item]
  · have hne : fn ≠ "" := by
      intro he
      rw [he, fs.disk_empty] at h
      exact Bool.noConfusion h
    simp [get_cached_item, cache_item, hne, h]

/-- C3 witness: the round trip evaluated at one concrete entry of each
kind (the image entry's file is present on the disk). -/
theorem c3_witness :
    get_cached_item (cache_item emptyFS "k1" (CachedVal.text "opened the cart") "description")
        "k1" "description" = Except.ok (some (CachedVal.text "opened the cart")) ∧
    get_cached_item (cache_item emptyFS "k2" (CachedVal.text "a short story") "summary")
        "k2" "summary" = Except.ok (some (CachedVal.text "a short story")) ∧
    get_cached_item
        (cache_item ⟨fun _ => none, fun p => p == "img_a.png", rfl⟩ "k3"
          (CachedVal.image "img_a.png" (some "https://img.example/a")) "image")
        "k3" "image" =
      Except.ok (some (CachedVal.image "img_a.png" (some "https://img.example/a"))) :=
  ⟨c3_cache_round_trip.1 emptyFS "k1" "opened the cart",
   c3_cache_round_trip.2.1 emptyFS "k2" "a short story",
   c3_cache_round_trip.2.2 ⟨fun _ => none, fun p => p == "img_a.png", rfl⟩ "k3"
     "img_a.png" (some "https://img.example/a") rfl⟩

/-! ## C10 — a cached empty string is a miss

`describe_interaction` and `generate_flow_summary` test the cached
value with `if cached:`; a stored empty string is falsy, so both fall
through to the service-call path.
-/

/-- C10: when the cached description (resp. summary) for the
operation's own fingerprint is the empty string, the operation takes
the service-call path instead of returning the cached value. -/
theorem c10_empty_cached_value_is_miss :
    (∀ (o : Oracle) (fs : FS) (step : FlowStep) (s fn u : Option String),
      fs.cache (interaction_cache_key step) = some (CacheFileData.obj (some "") s fn u) →
      describe_interaction o fs step =
        describe_service_call o fs step (interaction_cache_key step)) ∧
    (∀ (o : Oracle) (fs : FS) (ints : List Interaction) (fd : FlowData) (d fn u : Option String),
      fs.cache (summary_cache_key (fd.name.getD "") ints.length) =
        some (CacheFileData.obj d (some "") fn u) →
      generate_flow_summary o fs ints fd =
        summary_service_call o fs ints fd (summary_cache_key (fd.name.getD "") ints.length)) := by
  refine ⟨fun o fs step s fn u h => ?_, fun o fs ints fd d fn u h => ?_⟩
  · simp [describe_interaction, get_cached_item, h]
  · simp [generate_flow_summary, get_cached_item, h]

/-- C10 witness: with an empty string cached under the fingerprint of
the `Submit` step, `describe_interaction` re-enters the service path
(and, the service failing, produces the fallback, not the cached
value). -/
theorem c10_witness :
    describe_interaction failing_oracle
        ⟨fun _ => some (CacheFileData.obj (some "") none none none), fun _ => false, rfl⟩
        submit_button_step =
      describe_service_call failing_oracle
        ⟨fun _ => some (CacheFileData.obj (some "") none none none), fun _ => false, rfl⟩
        submit_button_step (interaction_cache_key submit_button_step) :=
  c10_empty_cached_value_is_miss.1 failing_oracle
    ⟨fun _ => some (CacheFileData.obj (some "") none none none), fun _ => false, rfl⟩
    submit_button_step none none none rfl

/-! ## Shared helper lemmas about the service-call paths -/

/-- With a failing chat service, the description service path returns
some fallback text with the file system unchanged and the
service-invoked flag set. -/
theorem describe_service_call_failure (o : Oracle) (fs : FS) (step : FlowStep) (k : String)
    (hfail : ∀ s p, o.chat s p = Except.error ()) :
    ∃ d, describe_service_call o fs step k = Except.ok (d, fs, true) := by
  simp only [describe_service_call, hfail]
  split
  · exact ⟨_, rfl⟩
  · split
    · exact ⟨_, rfl⟩
    · split
      · exact ⟨_, rfl⟩
      · exact ⟨_, rfl⟩

/-- With a failing chat service, the summary service path returns the
deterministic fallback sentence with the file system unchanged. -/
theorem summary_service_call_failure (o : Oracle) (fs : FS) (ints : List Interaction)
    (fd : FlowData) (k : String) (hfail : ∀ s p, o.chat s p = Except.error ()) :
    summary_service_call o fs ints fd k =
      Except.ok ("User completed flow: " ++ fd.name.getD "" ++ " with " ++
        toString ints.length ++ " actions.", fs, true) := by
  simp only [summary_service_call, hfail]

/-- An image cache entry whose referenced file is absent from the disk
is read back as a miss. -/
theorem stale_image_entry_miss (fs : FS) (k : String) (d s : Option String) (fn : String)
    (u : Option String) (hc : fs.cache k = some (CacheFileData.obj d s (some fn) u))
    (hd : fs.disk fn = false) :
    get_cached_item fs k "image" = Except.ok none := by
  by_cases hfn : fn = "" <;> simp [get_cached_item, hc, hd, hfn]

/-! ## C2 — fingerprint determinism and cached reuse

The fingerprint is a function of (kind, stringified inputs) only, so
equal inputs give equal keys.  The reuse half of the claim is too
strong as stated: a successful service response that strips to the
empty string is cached, but the truthiness test `if cached:` treats
the stored empty string as a miss, so the second invocation calls the
service again.  The claim is refuted on that input and proved with the
response required non-empty.
-/

/-- The returned description of a `describe_interaction` run
(`none` when the call raised). -/
def run_text : Except Unit (String × FS × Bool) → Option String
  | Except.ok (d, _, _) => some d
  | Except.error _ => none

/-- The service-invoked flag of a `describe_interaction` run. -/
def run_invoked : Except Unit (String × FS × Bool) → Option Bool
  | Except.ok (_, _, b) => some b
  | Except.error _ => none

/-- The service-invoked flag of a second `describe_interaction` run on
the file system left by a first run on the same step. -/
def rerun_invoked (o o2 : Oracle) (fs : FS) (step : FlowStep) : Option Bool :=
  match describe_interaction o fs step with
  | Except.ok (_, fs1, _) => run_invoked (describe_interaction o2 fs1 step)
  | Except.error _ => none

/-- C2 counterexample: the service succeeds with the empty string, so
the first invocation is successful (and caches the empty string), yet
the second invocation of `describe` on the same step invokes the
service again instead of returning the cached description. -/
theorem c2_counterexample :
    run_text (describe_interaction (const_oracle "") emptyFS submit_button_step) = some "" ∧
    run_invoked (describe_interaction (const_oracle "") emptyFS submit_button_step) =
      some true ∧
    rerun_invoked (const_oracle "") (const_oracle "") emptyFS submit_button_step = some true :=
  ⟨rfl, rfl, rfl⟩

/-- C2 (amended): the fingerprint is deterministic — equal (step id,
clicked-element text) pairs give equal cache keys — and after a first
invocation whose successful response is non-empty once stripped, a
second invocation on any step with the same id and clicked text
returns the cached description with no service call, whatever the
second oracle does. -/
theorem c2_deterministic_key_and_cached_reuse :
    (∀ step1 step2 : FlowStep, step1.id = step2.id → clicked_text step1 = clicked_text step2 →
      interaction_cache_key step1 = interaction_cache_key step2) ∧
    (∀ (o o2 : Oracle) (fs : FS) (step step2 : FlowStep) (resp : String),
      (∀ s p, o.chat s p = Except.ok resp) → py_strip resp ≠ "" →
      fs.cache (interaction_cache_key step) = none →
      step2.id = step.id → clicked_text step2 = clicked_text step →
      describe_interaction o fs step =
        Except.ok (py_strip resp,
          cache_item fs (interaction_cache_key step) (CachedVal.text (py_strip resp))
            "description", true) ∧
      describe_interaction o2
          (cache_item fs (interaction_cache_key step) (CachedVal.text (py_strip resp))
            "description") step2 =
        Except.ok (py_strip resp,
          cache_item fs (interaction_cache_key step) (CachedVal.text (py_strip resp))
            "description", false)) := by
  constructor
  · intro step1 step2 h1 h2
    simp only [interaction_cache_key, h1, h2]
  · intro o o2 fs step step2 resp hok hne hmiss hid htxt
    have hkey : interaction_cache_key step2 = interaction_cache_key step := by
      simp only [interaction_cache_key, hid, htxt]
    constructor
    · simp [describe_interaction, get_cached_item, hmiss, describe_service_call, hok]
    · simp [describe_interaction, hkey, get_cached_item, cache_item, hne]

/-- C2 witness: a non-empty successful response on the `Submit` step
is cached by the first invocation and served from the cache by the
second one, even against a service that now always fails. -/
theorem c2_witness :
    describe_interaction (const_oracle "Clicked the Submit button") emptyFS
        submit_button_step =
      Except.ok (py_strip "Clicked the Submit button",
        cache_item emptyFS (interaction_cache_key submit_button_step)
          (CachedVal.text (py_strip "Clicked the Submit button")) "description", true) ∧
    describe_interaction failing_oracle
        (cache_item emptyFS (interaction_cache_key submit_button_step)
          (CachedVal.text (py_strip "Clicked the Submit button")) "description")
        submit_button_step =
      Except.ok (py_strip "Clicked the Submit button",
        cache_item emptyFS (interaction_cache_key submit_button_step)
          (CachedVal.text (py_strip "Clicked the Submit button")) "description", false) :=
  c2_deterministic_key_and_cached_reuse.2 (const_oracle "Clicked the Submit button")
    failing_oracle emptyFS submit_button_step submit_button_step "Clicked the Submit button"
    (fun _ _ => rfl) (by decide) rfl rfl rfl

/-! ## C4 — image cache entries must point at an existing file -/

/-- A file system holding one image cache entry whose referenced file
has been deleted from the disk. -/
def stale_image_fs : FS :=
  ⟨fun _ => some (CacheFileData.obj none none (some "gone.png") (some "https://img.example/g")),
   fun _ => false, rfl⟩

/-- A file system holding one image cache entry whose referenced file
is present on the disk. -/
def live_image_fs : FS :=
  ⟨fun _ => some (CacheFileData.obj none none (some "img_a.png") (some "https://img.example/a")),
   fun p => p == "img_a.png", rfl⟩

/-- C4: an image cache hit is returned only if the recorded file still
exists on the disk; an entry whose file is gone reads back as a miss,
and on such a state `generate_social_media_image` takes the
regeneration path (returns without raising, with the service-invoked
flag set) instead of serving the cache. -/
theorem c4_image_hit_requires_file :
    (∀ (fs : FS) (k fn : String) (u : Option String),
      get_cached_item fs k "image" = Except.ok (some (CachedVal.image fn u)) →
      fs.disk fn = true) ∧
    (∀ (fs : FS) (k : String) (d s : Option String) (fn : String) (u : Option String),
      fs.cache k = some (CacheFileData.obj d s (some fn) u) → fs.disk fn = false →
      get_cached_item fs k "image" = Except.ok none) ∧
    (∀ (o : Oracle) (fs : FS) (flow_summary : String) (fd : FlowData)
      (ui : List Interaction) (now : String) (d s : Option String) (fn : String)
      (u : Option String),
      fs.cache (image_cache_key flow_summary fd) = some (CacheFileData.obj d s (some fn) u) →
      fs.disk fn = false →
      Except.map (fun r => r.2.2)
        (generate_social_media_image o fs flow_summary fd ui now) = Except.ok true) := by
  refine ⟨?_, ?_, ?_⟩
  · intro fs k fn u h
    simp only [get_cached_item] at h
    cases hcache : fs.cache k with
    | none => rw [hcache] at h; simp at h
    | some cfd =>
      cases cfd with
      | malformed => rw [hcache] at h; simp at h
      | obj d s fn' u' =>
        rw [hcache] at h
        cases fn' with
        | none => simp at h
        | some f =>
          by_cases hf : f = ""
          · simp [hf] at h
          · by_cases hdisk : fs.disk f = true
            · simp [hf, hdisk] at h
              exact h.1 ▸ hdisk
            · simp [hf, hdisk] at h
  · intro fs k d s fn u hc hd
    exact stale_image_entry_miss fs k d s fn u hc hd
  · intro o fs flow_summary fd ui now d s fn u hc hd
    have hm := stale_image_entry_miss fs (image_cache_key flow_summary fd) d s fn u hc hd
    simp only [generate_social_media_image, hm]
    simp only [image_service_call]
    cases h1 : o.image (generate_image_prompt flow_summary fd ui) with
    | error e => simp [h1, Except.map]
    | ok url =>
      cases h2 : o.download url with
      | error e => simp [h1, h2, Except.map]
      | ok content => simp [h1, h2, Except.map]

/-- C4 witness: a live image entry yields a hit whose file exists; the
same entry with the file deleted yields a miss and a regeneration
attempt. -/
theorem c4_witness :
    live_image_fs.disk "img_a.png" = true ∧
    get_cached_item stale_image_fs "k4" "image" = Except.ok none ∧
    Except.map (fun r => r.2.2)
      (generate_social_media_image failing_oracle stale_image_fs "a summary"
        ⟨some "Flow", []⟩ [] "20240101_000000") = Except.ok true :=
  ⟨c4_image_hit_requires_file.1 live_image_fs "k4" "img_a.png" (some "https://img.example/a")
      rfl,
   c4_image_hit_requires_file.2.1 stale_image_fs "k4" none none "gone.png"
      (some "https://img.example/g") rfl rfl,
   c4_image_hit_requires_file.2.2 failing_oracle stale_image_fs "a summary" ⟨some "Flow", []⟩
      [] "20240101_000000" none none "gone.png" (some "https://img.example/g") rfl rfl⟩

/-! ## C5 — fallbacks are never cached -/

/-- C5: with a failing generation service, whatever `describe` or
`summarize` returns, the file system component of the result is the
input file system — no cache entry is created on the failure path
(the fallback value returned there is pinned down by C8 and C9). -/
theorem c5_fallback_not_cached (o : Oracle) (hfail : ∀ s p, o.chat s p = Except.error ()) :
    (∀ (fs : FS) (step : FlowStep) (d : String) (fs' : FS) (b : Bool),
      describe_interaction o fs step = Except.ok (d, fs', b) → fs' = fs) ∧
    (∀ (fs : FS) (ints : List Interaction) (fd : FlowData) (r : String) (fs' : FS) (b : Bool),
      generate_flow_summary o fs ints fd = Except.ok (r, fs', b) → fs' = fs) := by
  constructor
  · intro fs step d fs' b h
    simp only [describe_interaction] at h
    split at h
    · exact absurd h (by simp)
    · split at h
      · obtain ⟨d0, hd0⟩ :=
          describe_service_call_failure o fs step (interaction_cache_key step) hfail
        rw [hd0] at h
        simp only [Except.ok.injEq, Prod.mk.injEq] at h
        exact h.2.1.symm
      · simp only [Except.ok.injEq, Prod.mk.injEq] at h
        exact h.2.1.symm
    · obtain ⟨d0, hd0⟩ :=
        describe_service_call_failure o fs step (interaction_cache_key step) hfail
      rw [hd0] at h
      simp only [Except.ok.injEq, Prod.mk.injEq] at h
      exact h.2.1.symm
  · intro fs ints fd r fs' b h
    simp only [generate_flow_summary] at h
    split at h
    · exact absurd h (by simp)
    · split at h
      · rw [summary_service_call_failure o fs ints fd _ hfail] at h
        simp only [Except.ok.injEq, Prod.mk.injEq] at h
        exact h.2.1.symm
      · simp only [Except.ok.injEq, Prod.mk.injEq] at h
        exact h.2.1.symm
    · rw [summary_service_call_failure o fs ints fd _ hfail] at h
      simp only [Except.ok.injEq, Prod.mk.injEq] at h
      exact h.2.1.symm

/-- C5 witness: a concrete failing run on an empty cache returns the
fallback and, by the theorem, leaves the file system unchanged. -/
theorem c5_witness :
    describe_interaction failing_oracle emptyFS submit_button_step =
      Except.ok ("Clicked on button: Submit", emptyFS, true) ∧ emptyFS = emptyFS :=
  have h : describe_interaction failing_oracle emptyFS submit_button_step =
      Except.ok ("Clicked on button: Submit", emptyFS, true) := rfl
  ⟨h, (c5_fallback_not_cached failing_oracle (fun _ _ => rfl)).1 emptyFS submit_button_step
    "Clicked on button: Submit" emptyFS true h⟩

/-! ## C6 — the summary fingerprint uses only (flow name, count)

The fingerprint half of the claim holds: the key is computed from the
flow name and the interaction count alone.  The reuse half is too
strong as stated, for the same reason as C2: a first run whose
successful summary strips to the empty string caches it, but the
second run's `if cached:` truthiness test treats the stored empty
string as a miss and invokes the service again.  The claim is refuted
below on that input and proved with the first response required
non-empty.
-/

/-- The service-invoked flag of a second `generate_flow_summary` run
on the file system left by a first run. -/
def summary_rerun_invoked (o o2 : Oracle) (fs : FS) (i1 i2 : List Interaction)
    (fd1 fd2 : FlowData) : Option Bool :=
  match generate_flow_summary o fs i1 fd1 with
  | Except.ok (_, fs1, _) => run_invoked (generate_flow_summary o2 fs1 i2 fd2)
  | Except.error _ => none

/-- C6 counterexample: the summary service succeeds with the empty
string, so the first run is successful (and caches the empty string),
yet a second run with the identical flow name and interaction count
invokes the service again instead of returning the first run's cached
summary. -/
theorem c6_counterexample :
    run_text (generate_flow_summary (const_oracle "") emptyFS [] checkout_flow) = some "" ∧
    run_invoked (generate_flow_summary (const_oracle "") emptyFS [] checkout_flow) =
      some true ∧
    summary_rerun_invoked (const_oracle "") (const_oracle "") emptyFS [] []
      checkout_flow checkout_flow = some true :=
  ⟨rfl, rfl, rfl⟩

/-- C6 (amended): the summary cache key is computed from the flow name
and the interaction count alone, so after a first run whose successful
summary is non-empty once stripped is cached, any run with the same
name and count — even with entirely different interaction contents,
different document steps and a different (even failing) service —
returns the first run's cached summary without a service call. -/
theorem c6_summary_fingerprint_name_count_only (o o2 : Oracle) (fs : FS)
    (i1 i2 : List Interaction) (fd1 fd2 : FlowData) (resp : String)
    (hname : fd1.name = fd2.name) (hlen : i1.length = i2.length)
    (hok : ∀ s p, o.chat s p = Except.ok resp) (hne : py_strip resp ≠ "")
    (hmiss : fs.cache (summary_cache_key (fd1.name.getD "") i1.length) = none) :
    generate_flow_summary o fs i1 fd1 =
      Except.ok (py_strip resp,
        cache_item fs (summary_cache_key (fd1.name.getD "") i1.length)
          (CachedVal.text (py_strip resp)) "summary", true) ∧
    generate_flow_summary o2
        (cache_item fs (summary_cache_key (fd1.name.getD "") i1.length)
          (CachedVal.text (py_strip resp)) "summary") i2 fd2 =
      Except.ok (py_strip resp,
        cache_item fs (summary_cache_key (fd1.name.getD "") i1.length)
          (CachedVal.text (py_strip resp)) "summary", false) := by
  have hkey : summary_cache_key (fd2.name.getD "") i2.length =
      summary_cache_key (fd1.name.getD "") i1.length := by
    rw [hname, hlen]
  constructor
  · simp [generate_flow_summary, get_cached_item, hmiss, summary_service_call, hok]
  · simp [generate_flow_summary, hkey, get_cached_item, cache_item, hne]

/-- C6 witness: a `Checkout` run with one interaction is cached; a
second run with the same name and count but a different interaction,
different document steps and a failing service still returns the
cached summary without a service call. -/
theorem c6_witness :
    generate_flow_summary (const_oracle "They shopped for a scooter.") emptyFS
        [⟨1, "Clicked on button: Add to cart", "IMAGE", "", "Add to cart", "Cart", ""⟩]
        checkout_flow =
      Except.ok (py_strip "They shopped for a scooter.",
        cache_item emptyFS (summary_cache_key "Checkout" 1)
          (CachedVal.text (py_strip "They shopped for a scooter.")) "summary", true) ∧
    generate_flow_summary failing_oracle
        (cache_item emptyFS (summary_cache_key "Checkout" 1)
          (CachedVal.text (py_strip "They shopped for a scooter.")) "summary")
        [⟨1, "Started: Checkout", "CHAPTER", "The checkout flow", "", "", ""⟩]
        ⟨some "Checkout",
          [⟨some "c1", some "CHAPTER", some "Checkout", some "The checkout flow", none, none⟩]⟩ =
      Except.ok (py_strip "They shopped for a scooter.",
        cache_item emptyFS (summary_cache_key "Checkout" 1)
          (CachedVal.text (py_strip "They shopped for a scooter.")) "summary", false) :=
  c6_summary_fingerprint_name_count_only (const_oracle "They shopped for a scooter.")
    failing_oracle emptyFS
    [⟨1, "Clicked on button: Add to cart", "IMAGE", "", "Add to cart", "Cart", ""⟩]
    [⟨1, "Started: Checkout", "CHAPTER", "The checkout flow", "", "", ""⟩]
    checkout_flow
    ⟨some "Checkout",
      [⟨some "c1", some "CHAPTER", some "Checkout", some "The checkout flow", none, none⟩]⟩
    "They shopped for a scooter." rfl rfl (fun _ _ => rfl) (by decide) rfl

/-! ## C8 — deterministic fallback templates for descriptions -/

/-- C8: on a cache miss with a raising service, `describe` returns
exactly the template selected by the element type — in particular
`"Clicked on button: Submit"` for a button labelled `Submit` — and the
analogous fixed templates for image, link and any other type. -/
theorem c8_fallback_templates (o : Oracle) (fs : FS) (step : FlowStep)
    (hfail : ∀ s p, o.chat s p = Except.error ())
    (hmiss : fs.cache (interaction_cache_key step) = none) :
    describe_interaction o fs step =
      Except.ok
        ((if clicked_element_type step = "button" then "Clicked on button: " ++ clicked_text step
          else if clicked_element_type step = "image" then
            "Clicked on image: " ++ clicked_text step
          else if clicked_element_type step = "link" then "Clicked on link: " ++ clicked_text step
          else "Interacted with: " ++ clicked_text step), fs, true) := by
  by_cases h1 : clicked_element_type step = "button" <;>
  by_cases h2 : clicked_element_type step = "image" <;>
  by_cases h3 : clicked_element_type step = "link" <;>
  simp [describe_interaction, get_cached_item, hmiss, describe_service_call, hfail, h1, h2, h3]

/-- C8 witness: the `Submit` button with a failing service and an
empty cache produces exactly `Clicked on button: Submit`. -/
theorem c8_witness :
    describe_interaction failing_oracle emptyFS submit_button_step =
      Except.ok ("Clicked on button: Submit", emptyFS, true) :=
  c8_fallback_templates failing_oracle emptyFS submit_button_step (fun _ _ => rfl) rfl

/-! ## C9 — deterministic fallback sentence for summaries -/

/-- C9: for a flow named `Checkout` with no interactions, a raising
summary service and no cached entry for that fingerprint, `summarize`
returns exactly `User completed flow: Checkout with 0 actions.`. -/
theorem c9_summary_failure_fallback (o : Oracle) (fs : FS) (fd : FlowData)
    (hname : fd.name = some "Checkout")
    (hfail : ∀ s p, o.chat s p = Except.error ())
    (hmiss : fs.cache (summary_cache_key "Checkout" 0) = none) :
    generate_flow_summary o fs [] fd =
      Except.ok ("User completed flow: Checkout with 0 actions.", fs, true) := by
  simp [generate_flow_summary, get_cached_item, summary_service_call, hname, hfail, hmiss]
  decide

/-- C9 witness: the fallback sentence evaluated on the concrete
`Checkout` document with an empty cache. -/
theorem c9_witness :
    generate_flow_summary failing_oracle emptyFS [] checkout_flow =
      Except.ok ("User completed flow: Checkout with 0 actions.", emptyFS, true) :=
  c9_summary_failure_fallback failing_oracle emptyFS checkout_flow rfl (fun _ _ => rfl) rfl

/-! ## C7 — step numbering over qualifying steps

A step qualifies when it is a CHAPTER with a non-empty title, or an
IMAGE/VIDEO step carrying a click context.  Extraction emits exactly
one interaction per qualifying step, in document order, numbered
contiguously from 1; non-qualifying steps consume no number.
-/

/-- The steps for which `extract_user_interactions` emits an
interaction: CHAPTER with truthy title, or IMAGE/VIDEO with a
`clickContext` key. -/
def qualifying_step (step : FlowStep) : Bool :=
  if step.type = some "CHAPTER" then decide (step.title.getD "" ≠ "")
  else if step.type = some "IMAGE" ∨ step.type = some "VIDEO" then step.clickContext.isSome
  else false

/-- Bookkeeping for one emitted interaction: appending a record
numbered `acc.length + 1` extends the number sequence by one and the
type sequence by the record's type. -/
theorem emit_maps (acc is : List Interaction) (x : Interaction) (k : Nat) (L : List String)
    (hx : x.step_number = acc.length + 1)
    (h1 : is.map Interaction.step_number =
      (acc ++ [x]).map Interaction.step_number ++ List.range' ((acc ++ [x]).length + 1) k)
    (h2 : is.map Interaction.type = (acc ++ [x]).map Interaction.type ++ L) :
    is.map Interaction.step_number =
      acc.map Interaction.step_number ++ List.range' (acc.length + 1) (k + 1) ∧
    is.map Interaction.type = acc.map Interaction.type ++ (x.type :: L) := by
  constructor
  · rw [h1, List.range'_succ (acc.length + 1) k 1]
    simp [hx]
  · rw [h2]
    simp

/-- The extraction loop, from any accumulator: the emitted records'
numbers continue the accumulator contiguously, one per qualifying
step, and their types are the qualifying steps' types in order. -/
theorem extract_go_maps (o : Oracle) :
    ∀ (steps : List FlowStep) (fs : FS) (acc is : List Interaction) (fs' : FS),
      extract_go o fs acc steps = Except.ok (is, fs') →
      is.map Interaction.step_number =
        acc.map Interaction.step_number ++
          List.range' (acc.length + 1) (steps.filter qualifying_step).length ∧
      is.map Interaction.type =
        acc.map Interaction.type ++
          (steps.filter qualifying_step).map (fun s => s.type.getD "") := by
  intro steps
  induction steps with
  | nil =>
    intro fs acc is fs' h
    simp only [extract_go, Except.ok.injEq, Prod.mk.injEq] at h
    simp [← h.1]
  | cons step rest ih =>
    intro fs acc is fs' h
    simp only [extract_go] at h
    by_cases hch : step.type = some "CHAPTER"
    · rw [if_pos hch] at h
      by_cases htitle : step.title.getD "" = ""
      · rw [if_neg (not_not_intro htitle)] at h
        have hq : qualifying_step step = false := by
          simp [qualifying_step, hch, htitle]
        rw [List.filter_cons_of_neg (by simp [hq])]
        exact ih _ _ _ _ h
      · rw [if_pos htitle] at h
        have hq : qualifying_step step = true := by
          simp [qualifying_step, hch, htitle]
        obtain ⟨h1, h2⟩ := ih _ _ _ _ h
        rw [List.filter_cons_of_pos hq, List.length_cons, List.map_cons]
        have := emit_maps _ _ _ _ _ rfl h1 h2
        simpa [hch] using this
    · rw [if_neg hch] at h
      by_cases hiv : step.type = some "IMAGE" ∨ step.type = some "VIDEO"
      · rw [if_pos hiv] at h
        by_cases hclick : step.clickContext.isSome = true
        · rw [if_pos hclick] at h
          cases hd : describe_interaction o fs step with
          | error e =>
            rw [hd] at h
            simp at h
          | ok triple =>
            obtain ⟨d, fs1, b⟩ := triple
            rw [hd] at h
            simp only [] at h
            have hq : qualifying_step step = true := by
              simp [qualifying_step, hch, hiv, hclick]
            obtain ⟨h1, h2⟩ := ih _ _ _ _ h
            rw [List.filter_cons_of_pos hq, List.length_cons, List.map_cons]
            have := emit_maps _ _ _ _ _ rfl h1 h2
            simpa using this
        · rw [if_neg hclick] at h
          have hq : qualifying_step step = false := by
            simp [qualifying_step, hch, hiv]
            simpa using hclick
          rw [List.filter_cons_of_neg (by simp [hq])]
          exact ih _ _ _ _ h
      · rw [if_neg hiv] at h
        have hq : qualifying_step step = false := by
          simp [qualifying_step, hch, hiv]
        rw [List.filter_cons_of_neg (by simp [hq])]
        exact ih _ _ _ _ h

/-- C7: whenever extraction succeeds, the interactions' step numbers
are exactly `1, 2, …, n` where `n` is the number of qualifying steps
(contiguous, strictly increasing from 1, one per qualifying step), and
the interactions' types follow the qualifying steps in document order
— non-qualifying steps consume no number. -/
theorem c7_step_numbering (o : Oracle) (fs : FS) (fd : FlowData)
    (is : List Interaction) (fs' : FS)
    (h : extract_user_interactions o fs fd = Except.ok (is, fs')) :
    is.map Interaction.step_number =
      List.range' 1 ((fd.steps.filter qualifying_step).length) ∧
    is.map Interaction.type =
      (fd.steps.filter qualifying_step).map (fun s => s.type.getD "") := by
  have := extract_go_maps o fd.steps fs [] is fs' h
  simpa using this

/-- The spec's worked example: CHAPTER with title, CHAPTER with empty
title, IMAGE with click context, VIDEO without click context. -/
def example_flow : FlowData :=
  ⟨some "Buying a scooter",
   [⟨some "c1", some "CHAPTER", some "A", some "sub", none, none⟩,
    ⟨some "c2", some "CHAPTER", some "", none, none, none⟩,
    ⟨some "s1", some "IMAGE", none, none, some ⟨some "Submit", some "button"⟩, none⟩,
    ⟨some "v9", some "VIDEO", none, none, none, none⟩]⟩

/-- What extraction produces on `example_flow` against an empty cache
and a failing service. -/
def example_interactions : List Interaction :=
  [⟨1, "Started: A", "CHAPTER", "sub", "", "", ""⟩,
   ⟨2, "Clicked on button: Submit", "IMAGE", "", "Submit", "", ""⟩]

/-- C7 witness: on the spec's example the two qualifying steps are
numbered 1 and 2 only. -/
theorem c7_witness :
    example_interactions.map Interaction.step_number = [1, 2] ∧
    example_interactions.map Interaction.type = ["CHAPTER", "IMAGE"] :=
  c7_step_numbering failing_oracle emptyFS example_flow example_interactions emptyFS rfl
